import Mathlib

/-!
# To-Do API (index.js): request handlers over a document collection

A shallow embedding of the five Express route handlers of `index.js` and of the
startup routine around them.

The handlers are translated from the source.  The two libraries they call are
external to the repository and are modelled here:

* `mongodb`: the `todos` collection is a list of documents; `insertOne`,
  `find().toArray()`, `findOne`, `updateOne` with `$set` and `deleteOne` act on it
  as the driver documents them.  Every operation takes a `fault`: an error the
  engine or the connection raises for a reason outside the model (`none` when
  there is none); a failed operation has no effect.
* `$set`: a key of the operand without a dot names a field of the record, and
  `setFields` is the engine's rule for such operands.  A key with a dot is a
  path into the record; what the engine does with an operand that has one is a
  parameter `paths` of `updateOne` and of the handler that calls it, and
  `viaSubdocuments` is that rule where the paths run through sub-documents.
* `express`: a response is a status code and a body; `res.json(x)` answers 200.

The `ObjectId` constructor is a parameter `mk` of the handlers that use it, so
that the results hold for every version of the driver; `ObjectId.ofHexString`
is the rule all versions share (24 hexadecimal characters).
-/

deriving instance DecidableEq for Except

namespace TodoApi

/-! ## Identifiers -/

/-- The twelve bytes of a BSON ObjectId, held as their 24 hexadecimal digits. -/
structure ObjectId where
  digits : List (Fin 16)
  size : digits.length = 24
  deriving DecidableEq

/-- Lower-case character of one hexadecimal digit. -/
def hexDigit (d : Fin 16) : Char :=
  if d.val < 10 then Char.ofNat (48 + d.val) else Char.ofNat (87 + d.val)

/-- Value of a hexadecimal character, of either case. -/
def hexVal (ch : Char) : Option (Fin 16) :=
  let n := ch.toNat
  if 48 ≤ n ∧ n ≤ 57 then some (Fin.ofNat (n - 48))
  else if 97 ≤ n ∧ n ≤ 102 then some (Fin.ofNat (n - 87))
  else if 65 ≤ n ∧ n ≤ 70 then some (Fin.ofNat (n - 55))
  else none

/-- Values of a run of hexadecimal characters; nothing when one is not one. -/
def hexDigits : List Char → Option (List (Fin 16))
  | [] => some []
  | ch :: cs =>
    match hexVal ch, hexDigits cs with
    | some d, some ds => some (d :: ds)
    | _, _ => none

/-- What is thrown: by the ObjectId constructor, by the database server, or by
the driver (connectivity, timeouts). -/
inductive Thrown
  | bsonError (message : String)
  | serverError (code : Nat) (message : String)
  | driverError (message : String)
  deriving DecidableEq, Repr

/-- The method `toHexString`, which is also how an ObjectId is written in a JSON
response. -/
def ObjectId.toHexString (o : ObjectId) : String :=
  String.mk (o.digits.map hexDigit)

/-- The constructor `new ObjectId(s)` on a string, as every version of the
driver has it: a string of 24 hexadecimal characters is read, anything else
throws. -/
def ObjectId.ofHexString (s : String) : Except Thrown ObjectId :=
  match hexDigits s.data with
  | some ds =>
    if h : ds.length = 24 then .ok ⟨ds, h⟩
    else .error (.bsonError "input must be a 24 character hex string")
  | none => .error (.bsonError "input must be a 24 character hex string")

/-! ## Documents and the collection -/

mutual
/-- A field value.  Arrays are never inspected; they are carried as their JSON
text. -/
inductive Value
  | null
  | bool (b : Bool)
  | num (n : Int)
  | str (s : String)
  | arr (json : String)
  | obj (fields : Fields)
  | oid (o : ObjectId)
/-- The fields of a sub-document, in order. -/
inductive Fields
  | nil
  | cons (name : String) (value : Value) (rest : Fields)
end

deriving instance DecidableEq for Value

/-- A document: field names with their values (a request body, a stored record). -/
abbrev Document := List (String × Value)

/-- The `todos` collection. -/
abbrev Collection := List Document

/-- The fields of a sub-document as a document. -/
def Fields.toDocument : Fields → Document
  | .nil => []
  | .cons name value rest => (name, value) :: rest.toDocument

/-- A document as the fields of a sub-document. -/
def Fields.ofDocument : Document → Fields
  | [] => .nil
  | (name, value) :: rest => .cons name value (Fields.ofDocument rest)

/-- Value of field `k` of a document. -/
def field (k : String) (d : Document) : Option Value := d.lookup k

/-- The filter `{ _id: o }` on one document. -/
def matchesId (o : ObjectId) (d : Document) : Bool :=
  decide (field "_id" d = some (.oid o))

/-- The identifier is unique in the collection (the `_id` index of the engine). -/
def UniqueIds (c : Collection) : Prop :=
  c.Pairwise (fun a b => field "_id" a ≠ field "_id" b)

instance (c : Collection) : Decidable (UniqueIds c) := by
  unfold UniqueIds; infer_instance

/-- Result of `insertOne`. -/
structure InsertOneResult where
  acknowledged : Bool
  insertedId : Value
  deriving DecidableEq

/-- Result of `updateOne`. -/
structure UpdateResult where
  acknowledged : Bool
  matchedCount : Nat
  modifiedCount : Nat
  upsertedCount : Nat
  upsertedId : Option Value
  deriving DecidableEq

/-- Result of `deleteOne`. -/
structure DeleteResult where
  acknowledged : Bool
  deletedCount : Nat
  deriving DecidableEq

/-- The driver gives a document an identifier before sending it:
`if (doc._id == null) doc._id = new ObjectId()`.  The result is the identifier
and the document that is stored. -/
def assignId (fresh : ObjectId) (doc : Document) : Value × Document :=
  match field "_id" doc with
  | none => (.oid fresh, doc ++ [("_id", .oid fresh)])
  | some .null =>
    (.oid fresh, doc.map (fun kv => if kv.1 = "_id" then ("_id", .oid fresh) else kv))
  | some v => (v, doc)

/-- Operation `insertOne(doc)`: `fresh` is the ObjectId the driver generates.  The
server refuses an array as `_id` and an `_id` already in the collection. -/
def insertOne (fault : Option Thrown) (fresh : ObjectId) (doc : Document)
    (c : Collection) : Except Thrown (InsertOneResult × Collection) :=
  match fault with
  | some e => .error e
  | none =>
    match assignId fresh doc with
    | (.arr _, _) => .error (.serverError 53 "The _id value cannot be of type array")
    | (v, doc1) =>
      if c.any (fun d => decide (field "_id" d = some v)) then
        .error (.serverError 11000 "E11000 duplicate key error")
      else .ok (⟨true, v⟩, c ++ [doc1])

/-- Operation `find().toArray()`: every document of the collection. -/
def findAll (fault : Option Thrown) (c : Collection) : Except Thrown (List Document) :=
  match fault with
  | some e => .error e
  | none => .ok c

/-- Operation `findOne({ _id: o })`: the first matching document, or null. -/
def findOne (fault : Option Thrown) (o : ObjectId) (c : Collection) :
    Except Thrown (Option Document) :=
  match fault with
  | some e => .error e
  | none => .ok (c.find? (matchesId o))

/-- The update `{ $set: body }` applied to one document when every key of the
body names a field: a field of the document that the body names takes the
body's value, a field the body does not name keeps its value, and a field only
the body has is added. -/
def setFields (body doc : Document) : Document :=
  doc.map (fun kv => (kv.1, (field kv.1 body).getD kv.2))
    ++ body.filter (fun kv => (field kv.1 doc).isNone)

/-- A key without a dot: in a `$set` operand it names a field of the record. -/
def dotless (k : String) : Bool := k.data.all (fun ch => ch != '.')

/-- The update `{ $set: body }` applied to one document.  When no key of the body
has a dot the keys are field names and `setFields` applies; otherwise some key
is a path and the rule `paths` of the engine applies. -/
def applySet (paths : Document → Document → Except Thrown Document)
    (body doc : Document) : Except Thrown Document :=
  if body.all (fun kv => dotless kv.1) then .ok (setFields body doc) else paths body doc

/-- The components of a path: the runs of characters between its dots. -/
def splitPath : List Char → List String
  | [] => [""]
  | ch :: cs =>
    match splitPath cs with
    | [] => [String.mk [ch]]
    | p :: ps => if ch = '.' then "" :: p :: ps else String.mk (ch :: p.data) :: ps

/-- The value a path creates where the record has nothing: `b.c` with `v` is the
sub-document with one field `b`, itself the sub-document with one field `c` of
value `v`. -/
def nest : List String → Value → Value
  | [], v => v
  | k :: ks, v => .obj (.cons k (nest ks v) .nil)

/-- One path of a `$set` operand applied to a document, through sub-documents:
the last component is set in the sub-document the others lead to, which is
created where the record has nothing; a path with an empty component or one that
meets a value that is not a sub-document is refused.  An array is carried as
text, so a path is not followed into one: the rule is the engine's on records
whose paths meet no array. -/
def setPath : List String → Value → Document → Except Thrown Document
  | [], _, _ => .error (.serverError 56 "An empty update path is not valid")
  | [k], v, d =>
    if k = "" then .error (.serverError 56 "An empty update path is not valid")
    else .ok (setFields [(k, v)] d)
  | k :: k2 :: ks, v, d =>
    if k = "" then .error (.serverError 56 "An empty update path is not valid")
    else
      match field k d with
      | none => .ok (d ++ [(k, nest (k2 :: ks) v)])
      | some (.obj fs) =>
        match setPath (k2 :: ks) v fs.toDocument with
        | .ok sub => .ok (setFields [(k, .obj (Fields.ofDocument sub))] d)
        | .error e => .error e
      | some _ => .error (.serverError 28 "Cannot create field in element")

/-- Two paths overlap when one starts with the other. -/
def overlaps : List String → List String → Bool
  | [], _ => true
  | _, [] => true
  | a :: p, b :: q => a == b && overlaps p q

/-- Some two paths of the list overlap. -/
def anyOverlap : List (List String) → Bool
  | [] => false
  | p :: ps => ps.any (overlaps p) || anyOverlap ps

/-- The keys of a `$set` operand applied one after the other, each as the path
it spells. -/
def setPaths : Document → Document → Except Thrown Document
  | [], d => .ok d
  | (k, v) :: rest, d =>
    match setPath (splitPath k.data) v d with
    | .ok d1 => setPaths rest d1
    | .error e => .error e

/-- The engine's rule for a `$set` operand whose paths run through sub-documents:
an operand with two overlapping paths is refused, otherwise its paths are
set. -/
def viaSubdocuments (body doc : Document) : Except Thrown Document :=
  if anyOverlap (body.map (fun kv => splitPath kv.1.data)) then
    .error (.serverError 40 "Updating the path would create a conflict")
  else setPaths body doc

/-- Replace the first document that satisfies `p`. -/
def replaceFirst (p : Document → Bool) (d1 : Document) : Collection → Collection
  | [] => []
  | d :: ds => if p d then d1 :: ds else d :: replaceFirst p d1 ds

/-- Operation `updateOne({ _id: o }, { $set: body })`, without upsert: the first
matching document is updated in place; the server refuses a change of `_id`. -/
def updateOne (paths : Document → Document → Except Thrown Document)
    (fault : Option Thrown) (o : ObjectId) (body : Document)
    (c : Collection) : Except Thrown (UpdateResult × Collection) :=
  match fault with
  | some e => .error e
  | none =>
    match c.find? (matchesId o) with
    | none => .ok (⟨true, 0, 0, 0, none⟩, c)
    | some d =>
      match applySet paths body d with
      | .error e => .error e
      | .ok d1 =>
        if field "_id" d1 = field "_id" d then
          .ok (⟨true, 1, if d1 = d then 0 else 1, 0, none⟩, replaceFirst (matchesId o) d1 c)
        else .error (.serverError 66 "would modify the immutable field _id")

/-- Operation `deleteOne({ _id: o })`: the first matching document is removed. -/
def deleteOne (fault : Option Thrown) (o : ObjectId) (c : Collection) :
    Except Thrown (DeleteResult × Collection) :=
  match fault with
  | some e => .error e
  | none =>
    match c.find? (matchesId o) with
    | none => .ok (⟨true, 0⟩, c)
    | some _ => .ok (⟨true, 1⟩, c.eraseP (matchesId o))

/-! ## Responses and the route handlers -/

/-- Body of a response: plain text (`res.send`) or JSON (`res.json`). -/
inductive Body
  | text (s : String)
  | inserted (r : InsertOneResult)
  | documents (ds : List Document)
  | document (d : Document)
  | updated (r : UpdateResult)
  | deleted (r : DeleteResult)
  deriving DecidableEq

/-- An HTTP response. -/
structure Response where
  status : Nat
  body : Body
  deriving DecidableEq

/-- Handler of `POST /todos`. -/
def postTodos (fault : Option Thrown) (fresh : ObjectId) (body : Document)
    (c : Collection) : Response × Collection :=
  match insertOne fault fresh body c with
  | .ok (result, c1) => (⟨201, .inserted result⟩, c1)
  | .error _ => (⟨500, .text "Create failed"⟩, c)

/-- Handler of `GET /todos`. -/
def getTodos (fault : Option Thrown) (c : Collection) : Response × Collection :=
  match findAll fault c with
  | .ok todos => (⟨200, .documents todos⟩, c)
  | .error _ => (⟨500, .text "Read failed"⟩, c)

/-- Handler of `GET /todos/:id`. -/
def getTodoById (mk : String → Except Thrown ObjectId) (fault : Option Thrown)
    (id : String) (c : Collection) : Response × Collection :=
  match mk id >>= fun o => findOne fault o c with
  | .ok none => (⟨404, .text "Not found"⟩, c)
  | .ok (some todo) => (⟨200, .document todo⟩, c)
  | .error _ => (⟨500, .text "Read failed"⟩, c)

/-- Handler of `PUT /todos/:id`. -/
def putTodo (mk : String → Except Thrown ObjectId)
    (paths : Document → Document → Except Thrown Document) (fault : Option Thrown)
    (id : String) (body : Document) (c : Collection) : Response × Collection :=
  match mk id >>= fun o => updateOne paths fault o body c with
  | .ok (result, c1) => (⟨200, .updated result⟩, c1)
  | .error _ => (⟨500, .text "Update failed"⟩, c)

/-- Handler of `DELETE /todos/:id`. -/
def deleteTodo (mk : String → Except Thrown ObjectId) (fault : Option Thrown)
    (id : String) (c : Collection) : Response × Collection :=
  match mk id >>= fun o => deleteOne fault o c with
  | .ok (result, c1) => (⟨200, .deleted result⟩, c1)
  | .error _ => (⟨500, .text "Delete failed"⟩, c)

/-! ## Startup -/

/-- What the process does at startup, in order. -/
inductive Action
  | useJson
  | log (message : String)
  | route (method path : String)
  | listen (port : Nat)
  | logError (message : String)
  | exit (code : Nat)
  deriving DecidableEq

/-- The port of the listener. -/
def port : Nat := 4000

/-- The startup routine: `app.use(express.json())`, then
`MongoClient.connect(...).then(...).catch(...)` on the outcome of the
connection attempt. -/
def startup (connect : Except Thrown Unit) : List Action :=
  .useJson ::
  match connect with
  | .ok _ =>
    [.log "Connected to MongoDB",
     .route "POST" "/todos",
     .route "GET" "/todos",
     .route "GET" "/todos/:id",
     .route "PUT" "/todos/:id",
     .route "DELETE" "/todos/:id",
     .listen port,
     .log "To-Do API running at http://localhost:4000"]
  | .error _ => [.logError "MongoDB connection failed:", .exit 1]

/-- A run of `POST /todos` requests, each with its fault, its generated ObjectId
and its body; the responses come in the order of the requests. -/
def postMany : List (Option Thrown × ObjectId × Document) → Collection →
    List Response × Collection
  | [], c => ([], c)
  | (fault, fresh, body) :: rest, c =>
    let r := postTodos fault fresh body c
    let rs := postMany rest r.2
    (r.1 :: rs.1, rs.2)

/-! ## Sample data -/

/-- An ObjectId of 24 equal digits. -/
def sampleId (d : Fin 16) : ObjectId := ⟨List.replicate 24 d, by simp⟩

/-- The stored to-do used in the examples. -/
def sampleTodo : Document := [("_id", .oid (sampleId 0)), ("title", .str "buy milk")]

/-- The record of the examples that has a sub-document. -/
def nestedTodo : Document :=
  [("_id", .oid (sampleId 0)), ("a", .obj (.cons "b" (.num 0) (.cons "c" (.num 5) .nil)))]

/-- Two `POST /todos` requests, served without fault. -/
def sampleRun : List (Option Thrown × ObjectId × Document) :=
  [(none, sampleId 1, [("title", .str "buy milk")]),
   (none, sampleId 2, [("title", .str "walk the dog")])]

/-! ## Lemmas on the model -/

theorem hexVal_hexDigit : ∀ d : Fin 16, hexVal (hexDigit d) = some d := by decide

theorem hexDigits_map_hexDigit (ds : List (Fin 16)) :
    hexDigits (ds.map hexDigit) = some ds := by
  induction ds with
  | nil => rfl
  | cons d ds ih => simp [hexDigits, hexVal_hexDigit, ih]

/-- Reading back the hexadecimal text of an ObjectId gives the ObjectId. -/
theorem ofHexString_toHexString (o : ObjectId) :
    ObjectId.ofHexString o.toHexString = .ok o := by
  obtain ⟨ds, h⟩ := o
  simp [ObjectId.ofHexString, ObjectId.toHexString, hexDigits_map_hexDigit, h]

theorem matchesId_iff (o : ObjectId) (d : Document) :
    matchesId o d = true ↔ field "_id" d = some (.oid o) := by
  simp [matchesId]

theorem matchesId_eq_false_iff (o : ObjectId) (d : Document) :
    matchesId o d = false ↔ field "_id" d ≠ some (.oid o) := by
  simp [matchesId]

/-- Without a match, `findOne` finds nothing. -/
theorem find_none_of_no_match (o : ObjectId) (c : Collection)
    (h : ∀ r ∈ c, field "_id" r ≠ some (.oid o)) : c.find? (matchesId o) = none := by
  rw [List.find?_eq_none]
  intro r hr
  simpa [matchesId] using h r hr

/-- With a match, `findOne` finds a matching document of the collection. -/
theorem find_some_of_match (o : ObjectId) (c : Collection)
    (h : ∃ r ∈ c, field "_id" r = some (.oid o)) :
    ∃ r, c.find? (matchesId o) = some r ∧ r ∈ c ∧ field "_id" r = some (.oid o) := by
  cases hf : c.find? (matchesId o) with
  | none =>
    obtain ⟨r, hr, hid⟩ := h
    rw [List.find?_eq_none] at hf
    exact absurd ((matchesId_iff o r).2 hid) (hf r hr)
  | some r =>
    exact ⟨r, rfl, List.mem_of_find?_eq_some hf, (matchesId_iff o r).1 (List.find?_some hf)⟩

/-- Under unique identifiers, `findOne` finds the one document with the identifier. -/
theorem find_eq_of_unique (o : ObjectId) (c : Collection) (hu : UniqueIds c)
    (r : Document) (hr : r ∈ c) (hid : field "_id" r = some (.oid o)) :
    c.find? (matchesId o) = some r := by
  induction c with
  | nil => cases hr
  | cons d ds ih =>
    have hu2 := List.pairwise_cons.1 hu
    rcases List.mem_cons.1 hr with rfl | hmem
    · simp [List.find?_cons, (matchesId_iff o r).2 hid]
    · have hne : matchesId o d = false := by
        rw [matchesId_eq_false_iff]
        intro hd
        exact hu2.1 r hmem (hd.trans hid.symm)
      simp [List.find?_cons, hne, ih hu2.2 hmem]


theorem field_map_getD (k : String) (body doc : Document) :
    field k (doc.map (fun kv => (kv.1, (field kv.1 body).getD kv.2)))
      = (field k doc).map (fun v => (field k body).getD v) := by
  induction doc with
  | nil => rfl
  | cons kv doc ih =>
    obtain ⟨a, w⟩ := kv
    simp only [field, List.map_cons, List.lookup_cons] at ih ⊢
    cases hka : k == a with
    | true =>
      have : k = a := by simpa using hka
      subst this
      simp
    | false => simpa using ih

theorem field_filter_absent (k : String) (body doc : Document) :
    field k (body.filter (fun kv => (field kv.1 doc).isNone))
      = if (field k doc).isNone then field k body else none := by
  induction body with
  | nil => simp [field]
  | cons kv body ih =>
    obtain ⟨a, w⟩ := kv
    simp only [field] at ih ⊢
    cases hka : k == a with
    | true =>
      have : k = a := by simpa using hka
      subst this
      cases hd : (List.lookup k doc).isNone with
      | true => simp [List.filter_cons, hd, List.lookup_cons]
      | false => simpa [List.filter_cons, hd, List.lookup_cons] using ih
    | false =>
      cases hd : (List.lookup a doc).isNone with
      | true => simpa [List.filter_cons, hd, List.lookup_cons, hka] using ih
      | false => simpa [List.filter_cons, hd, List.lookup_cons, hka] using ih

theorem field_append (k : String) (d1 d2 : Document) :
    field k (d1 ++ d2) = (field k d1).orElse (fun _ => field k d2) := by
  induction d1 with
  | nil => simp [field]
  | cons kv d1 ih =>
    obtain ⟨a, w⟩ := kv
    simp only [field, List.cons_append, List.lookup_cons] at ih ⊢
    cases hka : k == a with
    | true => simp
    | false => simpa using ih

/-- A field the body names has the body's value after `$set`. -/
theorem field_setFields_of_some (k : String) (v : Value) (body doc : Document)
    (h : field k body = some v) : field k (setFields body doc) = some v := by
  rw [setFields, field_append, field_map_getD, field_filter_absent]
  cases hd : field k doc with
  | none => simp [h]
  | some w => simp [h]

/-- A field the body does not name keeps its value through `$set`. -/
theorem field_setFields_of_none (k : String) (body doc : Document)
    (h : field k body = none) : field k (setFields body doc) = field k doc := by
  rw [setFields, field_append, field_map_getD, field_filter_absent]
  cases hd : field k doc with
  | none => simp [h]
  | some w => simp [h]

/-- Where the first match sits, and what replacing it gives. -/
theorem replaceFirst_of_find (p : Document → Bool) (d1 r : Document) (c : Collection)
    (h : c.find? p = some r) :
    ∃ pre post, c = pre ++ r :: post ∧ (∀ d ∈ pre, p d = false) ∧
      replaceFirst p d1 c = pre ++ d1 :: post := by
  induction c with
  | nil => simp at h
  | cons d ds ih =>
    cases hp : p d with
    | true =>
      have : d = r := by simpa [List.find?_cons, hp] using h
      subst this
      exact ⟨[], ds, rfl, by simp, by simp [replaceFirst, hp]⟩
    | false =>
      have h2 : ds.find? p = some r := by simpa [List.find?_cons, hp] using h
      obtain ⟨pre, post, hc, hpre, hrep⟩ := ih h2
      refine ⟨d :: pre, post, by simp [hc], ?_, by simp [replaceFirst, hp, hrep]⟩
      intro x hx
      rcases List.mem_cons.1 hx with rfl | hx
      · exact hp
      · exact hpre x hx

/-- Under unique identifiers, removing the first match leaves no match. -/
theorem no_match_after_erase (o : ObjectId) (c : Collection) (hu : UniqueIds c)
    (h : ∃ r ∈ c, field "_id" r = some (.oid o)) :
    ∀ d ∈ c.eraseP (matchesId o), field "_id" d ≠ some (.oid o) := by
  induction c with
  | nil => simp at h
  | cons x xs ih =>
    have hu2 := List.pairwise_cons.1 hu
    cases hp : matchesId o x with
    | true =>
      have hx : field "_id" x = some (.oid o) := (matchesId_iff o x).1 hp
      intro d hd hdid
      rw [List.eraseP_cons_of_pos hp] at hd
      exact hu2.1 d hd (hx.trans hdid.symm)
    | false =>
      have hx : field "_id" x ≠ some (.oid o) := (matchesId_eq_false_iff o x).1 hp
      have h2 : ∃ r ∈ xs, field "_id" r = some (.oid o) := by
        obtain ⟨r, hr, hrid⟩ := h
        rcases List.mem_cons.1 hr with rfl | hr
        · exact absurd hrid hx
        · exact ⟨r, hr, hrid⟩
      intro d hd
      rw [List.eraseP_cons_of_neg (by simp [hp])] at hd
      rcases List.mem_cons.1 hd with rfl | hd
      · exact hx
      · exact ih hu2.2 h2 d hd

theorem field_id_map_assign (w : Value) (doc : Document) (x : Value)
    (h : field "_id" doc = some x) :
    field "_id" (doc.map (fun kv => if kv.1 = "_id" then ("_id", w) else kv)) = some w := by
  induction doc with
  | nil => simp [field] at h
  | cons kv doc ih =>
    obtain ⟨a, y⟩ := kv
    by_cases ha : a = "_id"
    · subst ha
      simp [field, List.lookup_cons]
    · have hb : ("_id" == a) = false := by simpa using fun h2 => ha h2.symm
      simp only [field, List.lookup_cons, hb] at h
      simpa [field, List.lookup_cons, ha, hb] using ih h

/-- The document `assignId` gives carries the identifier it gives. -/
theorem field_id_assignId (fresh : ObjectId) (doc : Document) :
    field "_id" (assignId fresh doc).2 = some (assignId fresh doc).1 := by
  unfold assignId
  split
  · next h =>
    rw [field_append, h]
    rfl
  · next h => exact field_id_map_assign _ doc _ h
  · next v _ h => exact h

/-- What a successful `insertOne` has done. -/
theorem insertOne_ok (fault : Option Thrown) (fresh : ObjectId) (doc : Document)
    (c c1 : Collection) (res : InsertOneResult)
    (h : insertOne fault fresh doc c = .ok (res, c1)) :
    fault = none ∧ res = ⟨true, (assignId fresh doc).1⟩ ∧
      c1 = c ++ [(assignId fresh doc).2] ∧
      (∀ d ∈ c, field "_id" d ≠ some (assignId fresh doc).1) := by
  cases fault with
  | some e => simp [insertOne] at h
  | none =>
    unfold insertOne at h
    generalize assignId fresh doc = p at h ⊢
    obtain ⟨v, d1⟩ := p
    by_cases hany : c.any (fun d => decide (field "_id" d = some v)) = true
    · cases v <;> simp [hany] at h
    · have hno : ∀ d ∈ c, field "_id" d ≠ some v := by simpa using hany
      cases v <;> simp [hany] at h <;>
        exact ⟨rfl, h.1.symm, h.2.symm, hno⟩

/-- A `POST /todos` answered with 201 has appended one document, which carries
the acknowledged identifier; any other answer leaves the collection as it was. -/
theorem postTodos_cases (fault : Option Thrown) (fresh : ObjectId) (body : Document)
    (c : Collection) :
    (∃ v d1, postTodos fault fresh body c = (⟨201, .inserted ⟨true, v⟩⟩, c ++ [d1]) ∧
        field "_id" d1 = some v ∧ ∀ d ∈ c, field "_id" d ≠ some v) ∨
      ((postTodos fault fresh body c).1.status ≠ 201 ∧ (postTodos fault fresh body c).2 = c) := by
  cases h : insertOne fault fresh body c with
  | error e =>
    right
    simp [postTodos, h]
  | ok out =>
    obtain ⟨res, c1⟩ := out
    obtain ⟨_, hres, hc1, hno⟩ := insertOne_ok fault fresh body c c1 res h
    left
    exact ⟨(assignId fresh body).1, (assignId fresh body).2,
      by simp [postTodos, h, hres, hc1], field_id_assignId fresh body, hno⟩

/-- A run of `POST /todos` requests removes nothing from the collection. -/
theorem postMany_keeps (reqs : List (Option Thrown × ObjectId × Document)) :
    ∀ (c : Collection), ∀ d ∈ c, d ∈ (postMany reqs c).2 := by
  induction reqs with
  | nil => intro c d hd; simpa [postMany] using hd
  | cons req rest ih =>
    obtain ⟨fault, fresh, body⟩ := req
    intro c d hd
    simp only [postMany]
    apply ih
    rcases postTodos_cases fault fresh body c with ⟨v, d1, hp, _, _⟩ | ⟨_, hc⟩
    · rw [hp]
      exact List.mem_append_left _ hd
    · rw [hc]
      exact hd

/-! ## Unique identifiers are kept -/

theorem uniqueIds_iff_nodup (c : Collection) :
    UniqueIds c ↔ (c.map (field "_id")).Nodup := by
  simp [UniqueIds, List.Nodup, List.pairwise_map]

/-- Where `PUT /todos/:id` changes the collection, it replaces one record by one
with the same `_id`. -/
theorem putTodo_state (mk : String → Except Thrown ObjectId)
    (paths : Document → Document → Except Thrown Document) (fault : Option Thrown)
    (id : String) (body : Document) (c : Collection) :
    (putTodo mk paths fault id body c).2 = c ∨
      ∃ pre post r r1, c = pre ++ r :: post ∧
        (putTodo mk paths fault id body c).2 = pre ++ r1 :: post ∧
        field "_id" r1 = field "_id" r := by
  cases hid : mk id with
  | error e => left; simp [putTodo, hid, bind, Except.bind]
  | ok o =>
    cases fault with
    | some e => left; simp [putTodo, hid, updateOne, bind, Except.bind]
    | none =>
      cases hr : c.find? (matchesId o) with
      | none => left; simp [putTodo, hid, updateOne, bind, Except.bind, hr]
      | some r =>
        cases hs : applySet paths body r with
        | error e => left; simp [putTodo, hid, updateOne, bind, Except.bind, hr, hs]
        | ok d1 =>
          by_cases hk : field "_id" d1 = field "_id" r
          · right
            obtain ⟨pre, post, hc, _, hrep⟩ := replaceFirst_of_find (matchesId o) d1 r c hr
            exact ⟨pre, post, r, d1, hc,
              by simp [putTodo, hid, updateOne, bind, Except.bind, hr, hs, hk, hrep], hk⟩
          · left; simp [putTodo, hid, updateOne, bind, Except.bind, hr, hs, hk]

/-- The state `DELETE /todos/:id` leaves is the collection or the collection
without its first match. -/
theorem deleteTodo_state (mk : String → Except Thrown ObjectId) (fault : Option Thrown)
    (id : String) (c : Collection) :
    (deleteTodo mk fault id c).2 = c ∨
      ∃ o, (deleteTodo mk fault id c).2 = c.eraseP (matchesId o) := by
  cases hid : mk id with
  | error e => left; simp [deleteTodo, hid, bind, Except.bind]
  | ok o =>
    cases fault with
    | some e => left; simp [deleteTodo, hid, deleteOne, bind, Except.bind]
    | none =>
      cases hr : c.find? (matchesId o) with
      | none => left; simp [deleteTodo, hid, deleteOne, bind, Except.bind, hr]
      | some r => right; exact ⟨o, by simp [deleteTodo, hid, deleteOne, bind, Except.bind, hr]⟩

/-- Every handler keeps the identifiers of the collection unique, and the empty
collection has them unique: the states the service reaches have unique
identifiers. -/
theorem handlers_keep_uniqueIds (mk : String → Except Thrown ObjectId)
    (paths : Document → Document → Except Thrown Document)
    (fault : Option Thrown) (fresh : ObjectId) (id : String) (body : Document)
    (c : Collection) (hu : UniqueIds c) :
    UniqueIds [] ∧ UniqueIds (postTodos fault fresh body c).2 ∧
      UniqueIds (getTodos fault c).2 ∧ UniqueIds (getTodoById mk fault id c).2 ∧
      UniqueIds (putTodo mk paths fault id body c).2 ∧
      UniqueIds (deleteTodo mk fault id c).2 := by
  refine ⟨List.Pairwise.nil, ?_, ?_, ?_, ?_, ?_⟩
  · rcases postTodos_cases fault fresh body c with ⟨v, d1, hp, hd1, hno⟩ | ⟨_, hc⟩
    · rw [hp]
      refine List.pairwise_append.2 ⟨hu, List.pairwise_singleton _ _, ?_⟩
      intro a ha b hb
      rw [List.mem_singleton.1 hb, hd1]
      exact hno a ha
    · rw [hc]
      exact hu
  · have h : (getTodos fault c).2 = c := by
      unfold getTodos
      split <;> rfl
    rw [h]
    exact hu
  · have h : (getTodoById mk fault id c).2 = c := by
      unfold getTodoById
      split <;> rfl
    rw [h]
    exact hu
  · rcases putTodo_state mk paths fault id body c with h | ⟨pre, post, r, r1, hc, h, hk⟩
    · rw [h]
      exact hu
    · rw [h, uniqueIds_iff_nodup]
      rw [hc, uniqueIds_iff_nodup] at hu
      simpa [hk] using hu
  · rcases deleteTodo_state mk fault id c with h | ⟨o, h⟩
    · rw [h]
      exact hu
    · rw [h]
      exact List.Pairwise.sublist (List.eraseP_sublist c) hu

/-! ## The single-record lookup -/

/-- Claim C1: for a well-formed identifier, `GET /todos/:id` answers 200 with the
stored record when a record has that `_id` (with unique identifiers: with that
very record) and 404 with body `Not found` when none has; whatever the
database does, the collection is left as it was. -/
theorem getTodoById_found_or_not_found (mk : String → Except Thrown ObjectId)
    (id : String) (o : ObjectId) (c : Collection) (hid : mk id = .ok o) :
    ((∃ r ∈ c, field "_id" r = some (.oid o)) →
        ∃ r ∈ c, field "_id" r = some (.oid o) ∧
          getTodoById mk none id c = (⟨200, .document r⟩, c)) ∧
      (UniqueIds c → ∀ r ∈ c, field "_id" r = some (.oid o) →
        getTodoById mk none id c = (⟨200, .document r⟩, c)) ∧
      ((∀ r ∈ c, field "_id" r ≠ some (.oid o)) →
        getTodoById mk none id c = (⟨404, .text "Not found"⟩, c)) ∧
      (∀ fault, (getTodoById mk fault id c).2 = c) := by
  refine ⟨?_, ?_, ?_, ?_⟩
  · intro h
    obtain ⟨r, hf, hr, hrid⟩ := find_some_of_match o c h
    exact ⟨r, hr, hrid, by simp [getTodoById, hid, findOne, bind, Except.bind, hf]⟩
  · intro hu r hr hrid
    simp [getTodoById, hid, findOne, bind, Except.bind, find_eq_of_unique o c hu r hr hrid]
  · intro h
    simp [getTodoById, hid, findOne, bind, Except.bind, find_none_of_no_match o c h]
  · intro fault
    unfold getTodoById
    split <;> rfl

/-- Witness of C1: the sample to-do is fetched by its identifier, and another
identifier is not found. -/
theorem getTodoById_found_or_not_found_witness :
    ObjectId.ofHexString "000000000000000000000000" = .ok (sampleId 0) ∧
      getTodoById ObjectId.ofHexString none "000000000000000000000000" [sampleTodo]
        = (⟨200, .document sampleTodo⟩, [sampleTodo]) ∧
      getTodoById ObjectId.ofHexString none "111111111111111111111111" [sampleTodo]
        = (⟨404, .text "Not found"⟩, [sampleTodo]) :=
  ⟨by decide,
   (getTodoById_found_or_not_found ObjectId.ofHexString "000000000000000000000000"
      (sampleId 0) [sampleTodo] (by decide)).2.1 (by decide) sampleTodo (by decide) (by decide),
   (getTodoById_found_or_not_found ObjectId.ofHexString "111111111111111111111111"
      (sampleId 1) [sampleTodo] (by decide)).2.2.1 (by decide)⟩

/-- Claim C7: for a malformed identifier (one the ObjectId constructor throws
on), `GET /todos/:id` still returns a response; its status is a failure status
(in the range 400 to 599, so not 200) and the collection is left as it was. -/
theorem getTodoById_malformed_fails (mk : String → Except Thrown ObjectId)
    (fault : Option Thrown) (id : String) (c : Collection) (e : Thrown)
    (hid : mk id = .error e) :
    ∃ resp, getTodoById mk fault id c = (resp, c) ∧
      400 ≤ resp.status ∧ resp.status ≤ 599 ∧ resp.status ≠ 200 := by
  refine ⟨⟨500, .text "Read failed"⟩, ?_, by decide, by decide, by decide⟩
  simp [getTodoById, hid, bind, Except.bind]

/-- Witness of C7: the identifier `not-an-id` on a collection holding the sample. -/
theorem getTodoById_malformed_fails_witness :
    ObjectId.ofHexString "not-an-id"
        = .error (.bsonError "input must be a 24 character hex string") ∧
      ∃ resp, getTodoById ObjectId.ofHexString none "not-an-id" [sampleTodo]
          = (resp, [sampleTodo]) ∧
        400 ≤ resp.status ∧ resp.status ≤ 599 ∧ resp.status ≠ 200 :=
  ⟨by decide,
   getTodoById_malformed_fails ObjectId.ofHexString none "not-an-id" [sampleTodo]
     (.bsonError "input must be a 24 character hex string") (by decide)⟩

/-- Counterexample to C8: the malformed identifier `xyz` is answered with status
500, not with the 404 of an identifier that is not found. -/
theorem getTodoById_malformed_not_404 :
    ObjectId.ofHexString "xyz"
        = .error (.bsonError "input must be a 24 character hex string") ∧
      (getTodoById ObjectId.ofHexString none "xyz" []).1 = ⟨500, .text "Read failed"⟩ ∧
      (getTodoById ObjectId.ofHexString none "xyz" []).1.status ≠ 404 := by
  decide

/-- Claim C8, amended: for a malformed identifier `GET /todos/:id` answers with
status 500 and body `Read failed`, the answer it gives to a database failure,
which differs from the 404 `Not found` of a well-formed identifier without
record. -/
theorem getTodoById_malformed_is_500 (mk : String → Except Thrown ObjectId)
    (fault : Option Thrown) (id : String) (c : Collection) (e : Thrown)
    (hid : mk id = .error e) :
    (getTodoById mk fault id c).1 = ⟨500, .text "Read failed"⟩ ∧
      (getTodoById mk fault id c).1 ≠ ⟨404, .text "Not found"⟩ := by
  have h : (getTodoById mk fault id c).1 = ⟨500, .text "Read failed"⟩ := by
    simp [getTodoById, hid, bind, Except.bind]
  exact ⟨h, by rw [h]; decide⟩

/-- Witness of C8 as amended: the identifier `12345`, too short to be one. -/
theorem getTodoById_malformed_is_500_witness :
    ObjectId.ofHexString "12345"
        = .error (.bsonError "input must be a 24 character hex string") ∧
      (getTodoById ObjectId.ofHexString none "12345" [sampleTodo]).1
        = ⟨500, .text "Read failed"⟩ ∧
      (getTodoById ObjectId.ofHexString none "12345" [sampleTodo]).1
        ≠ ⟨404, .text "Not found"⟩ :=
  ⟨by decide,
   getTodoById_malformed_is_500 ObjectId.ofHexString none "12345" [sampleTodo]
     (.bsonError "input must be a 24 character hex string") (by decide)⟩

/-! ## Update and delete without a match -/

/-- Claim C2: for a well-formed identifier that no record has, and any body,
`PUT /todos/:id` answers 200 with an acknowledgment of zero matched and zero
modified (and nothing upserted) and `DELETE /todos/:id` answers 200 with an
acknowledgment of zero deleted; both leave the collection as it was. -/
theorem put_delete_without_match (mk : String → Except Thrown ObjectId)
    (paths : Document → Document → Except Thrown Document)
    (id : String) (o : ObjectId) (body : Document) (c : Collection)
    (hid : mk id = .ok o) (hno : ∀ r ∈ c, field "_id" r ≠ some (.oid o)) :
    putTodo mk paths none id body c = (⟨200, .updated ⟨true, 0, 0, 0, none⟩⟩, c) ∧
      deleteTodo mk none id c = (⟨200, .deleted ⟨true, 0⟩⟩, c) := by
  have hf := find_none_of_no_match o c hno
  constructor
  · simp [putTodo, hid, updateOne, bind, Except.bind, hf]
  · simp [deleteTodo, hid, deleteOne, bind, Except.bind, hf]

/-- Witness of C2: an identifier of ones against a collection holding the sample. -/
theorem put_delete_without_match_witness :
    ObjectId.ofHexString "111111111111111111111111" = .ok (sampleId 1) ∧
      (∀ r ∈ [sampleTodo], field "_id" r ≠ some (.oid (sampleId 1))) ∧
      putTodo ObjectId.ofHexString viaSubdocuments none "111111111111111111111111"
          [("done", .bool true)] [sampleTodo]
        = (⟨200, .updated ⟨true, 0, 0, 0, none⟩⟩, [sampleTodo]) ∧
      deleteTodo ObjectId.ofHexString none "111111111111111111111111" [sampleTodo]
        = (⟨200, .deleted ⟨true, 0⟩⟩, [sampleTodo]) :=
  ⟨by decide, by decide,
   put_delete_without_match ObjectId.ofHexString viaSubdocuments
     "111111111111111111111111" (sampleId 1)
     [("done", .bool true)] [sampleTodo] (by decide) (by decide)⟩

/-! ## Update of an existing record -/

/-- An operand without a dotted key is applied by `setFields`, whatever the rule
for paths. -/
theorem applySet_of_dotless (paths : Document → Document → Except Thrown Document)
    (body doc : Document) (hkeys : ∀ kv ∈ body, dotless kv.1 = true) :
    applySet paths body doc = .ok (setFields body doc) := by
  have h : body.all (fun kv => dotless kv.1) = true := List.all_eq_true.2 hkeys
  simp [applySet, h]

/-- On a matching record `PUT /todos/:id` succeeds exactly when the database
raises no fault, the engine applies the operand, and `_id` is left as it is. -/
theorem putTodo_status_200_iff (mk : String → Except Thrown ObjectId)
    (paths : Document → Document → Except Thrown Document)
    (fault : Option Thrown) (id : String) (o : ObjectId) (body : Document)
    (c : Collection) (r : Document) (hid : mk id = .ok o)
    (hr : c.find? (matchesId o) = some r) :
    (putTodo mk paths fault id body c).1.status = 200 ↔
      fault = none ∧
        ∃ d1, applySet paths body r = .ok d1 ∧ field "_id" d1 = field "_id" r := by
  cases fault with
  | some e => simp [putTodo, hid, updateOne, bind, Except.bind]
  | none =>
    cases hs : applySet paths body r with
    | error e => simp [putTodo, hid, updateOne, bind, Except.bind, hr, hs]
    | ok d1 =>
      by_cases hk : field "_id" d1 = field "_id" r
      · simp [putTodo, hid, updateOne, bind, Except.bind, hr, hs, hk]
      · simp [putTodo, hid, updateOne, bind, Except.bind, hr, hs, hk]

/-- Counterexample to C3: the body with the one key `a.b` and value 1, put on a
record whose field `a` is the sub-document with `b` 0 and `c` 5.  The update
succeeds; afterwards the record has no value for the body's key `a.b`, and its
field `a`, a key the body does not have, is no longer what it was (`b` is 1
in it). -/
theorem putTodo_dotted_key_is_a_path :
    putTodo ObjectId.ofHexString viaSubdocuments none "000000000000000000000000"
        [("a.b", .num 1)] [nestedTodo]
      = (⟨200, .updated ⟨true, 1, 1, 0, none⟩⟩,
          [[("_id", .oid (sampleId 0)),
            ("a", .obj (.cons "b" (.num 1) (.cons "c" (.num 5) .nil)))]]) ∧
      [nestedTodo].find? (matchesId (sampleId 0)) = some nestedTodo ∧
      field "a.b" [("a.b", Value.num 1)] = some (.num 1) ∧
      field "a.b" [("_id", Value.oid (sampleId 0)),
        ("a", .obj (.cons "b" (.num 1) (.cons "c" (.num 5) .nil)))] = none ∧
      field "a" [("a.b", Value.num 1)] = none ∧
      field "a" [("_id", Value.oid (sampleId 0)),
        ("a", .obj (.cons "b" (.num 1) (.cons "c" (.num 5) .nil)))] ≠ field "a" nestedTodo := by
  decide

/-- Claim C3, amended: when `PUT /todos/:id` succeeds with a body none of whose
keys has a dot, on an identifier that matches the record `r`, the collection is
the old one with `r` replaced in its place by a record `r1` that has the body's
value for every key of the body, the value of `r` for every other key, and the
identifier still; every other record is as it was, and the acknowledgment
reports one match. -/
theorem putTodo_merges_body (mk : String → Except Thrown ObjectId)
    (paths : Document → Document → Except Thrown Document)
    (fault : Option Thrown) (id : String) (o : ObjectId) (body : Document)
    (c c1 : Collection) (r : Document) (res : Body) (hid : mk id = .ok o)
    (hkeys : ∀ kv ∈ body, dotless kv.1 = true)
    (hr : c.find? (matchesId o) = some r)
    (hput : putTodo mk paths fault id body c = (⟨200, res⟩, c1)) :
    ∃ pre post r1, c = pre ++ r :: post ∧ c1 = pre ++ r1 :: post ∧
      (∀ d ∈ pre, field "_id" d ≠ some (.oid o)) ∧
      (∀ k v, field k body = some v → field k r1 = some v) ∧
      (∀ k, field k body = none → field k r1 = field k r) ∧
      field "_id" r1 = some (.oid o) ∧
      res = .updated ⟨true, 1, if r1 = r then 0 else 1, 0, none⟩ := by
  have hrid : field "_id" r = some (.oid o) := (matchesId_iff o r).1 (List.find?_some hr)
  have hs := applySet_of_dotless paths body r hkeys
  cases fault with
  | some e => simp [putTodo, hid, updateOne, bind, Except.bind] at hput
  | none =>
    by_cases hk : field "_id" (setFields body r) = field "_id" r
    · simp only [putTodo, hid, updateOne, bind, Except.bind, hr, hs, hk, if_true,
        Prod.mk.injEq, Response.mk.injEq, true_and] at hput
      obtain ⟨hres, hc1⟩ := hput
      obtain ⟨pre, post, hc, hpre, hrep⟩ :=
        replaceFirst_of_find (matchesId o) (setFields body r) r c hr
      refine ⟨pre, post, setFields body r, hc, ?_, ?_, ?_, ?_, ?_, hres.symm⟩
      · rw [← hc1, hrep]
      · intro d hd
        exact (matchesId_eq_false_iff o d).1 (hpre d hd)
      · intro k v hkv
        exact field_setFields_of_some k v body r hkv
      · intro k hkn
        exact field_setFields_of_none k body r hkn
      · rw [hk, hrid]
    · simp [putTodo, hid, updateOne, bind, Except.bind, hr, hs, hk] at hput

/-- Witness of C3 as amended: `done` is set on the sample to-do, which keeps its
title. -/
theorem putTodo_merges_body_witness :
    (∀ kv ∈ [("done", Value.bool true)], dotless kv.1 = true) ∧
    ∃ pre post r1, [sampleTodo] = pre ++ sampleTodo :: post ∧
      [[("_id", .oid (sampleId 0)), ("title", .str "buy milk"), ("done", .bool true)]]
        = pre ++ r1 :: post ∧
      (∀ d ∈ pre, field "_id" d ≠ some (.oid (sampleId 0))) ∧
      (∀ k v, field k [("done", Value.bool true)] = some v → field k r1 = some v) ∧
      (∀ k, field k [("done", Value.bool true)] = none → field k r1 = field k sampleTodo) ∧
      field "_id" r1 = some (.oid (sampleId 0)) ∧
      Body.updated ⟨true, 1, 1, 0, none⟩
        = .updated ⟨true, 1, if r1 = sampleTodo then 0 else 1, 0, none⟩ :=
  ⟨by decide,
   putTodo_merges_body ObjectId.ofHexString viaSubdocuments none "000000000000000000000000"
    (sampleId 0) [("done", .bool true)] [sampleTodo]
    [[("_id", .oid (sampleId 0)), ("title", .str "buy milk"), ("done", .bool true)]]
    sampleTodo (.updated ⟨true, 1, 1, 0, none⟩) (by decide) (by decide) (by decide)
    (by decide)⟩

/-! ## Delete, then fetch, then delete again -/

/-- Claim C5: for the identifier of an existing record, `DELETE /todos/:id`
answers 200 with an acknowledgment of one deletion; on the collection it leaves,
`GET /todos/:id` with the same identifier answers 404 and a second
`DELETE /todos/:id` answers 200 with an acknowledgment of zero deletions. -/
theorem delete_get_delete (mk : String → Except Thrown ObjectId) (id : String)
    (o : ObjectId) (c : Collection) (hid : mk id = .ok o) (hu : UniqueIds c)
    (hex : ∃ r ∈ c, field "_id" r = some (.oid o)) :
    ∃ c1, deleteTodo mk none id c = (⟨200, .deleted ⟨true, 1⟩⟩, c1) ∧
      getTodoById mk none id c1 = (⟨404, .text "Not found"⟩, c1) ∧
      deleteTodo mk none id c1 = (⟨200, .deleted ⟨true, 0⟩⟩, c1) := by
  obtain ⟨r, hf, _, _⟩ := find_some_of_match o c hex
  have hno := no_match_after_erase o c hu hex
  have hf1 := find_none_of_no_match o (c.eraseP (matchesId o)) hno
  refine ⟨c.eraseP (matchesId o), ?_, ?_, ?_⟩
  · simp [deleteTodo, hid, deleteOne, bind, Except.bind, hf]
  · simp [getTodoById, hid, findOne, bind, Except.bind, hf1]
  · simp [deleteTodo, hid, deleteOne, bind, Except.bind, hf1]

/-- Witness of C5: the sample to-do is deleted from a collection of two. -/
theorem delete_get_delete_witness :
    ObjectId.ofHexString "000000000000000000000000" = .ok (sampleId 0) ∧
      UniqueIds [sampleTodo, [("_id", .oid (sampleId 1))]] ∧
      ∃ c1, deleteTodo ObjectId.ofHexString none "000000000000000000000000"
            [sampleTodo, [("_id", .oid (sampleId 1))]]
          = (⟨200, .deleted ⟨true, 1⟩⟩, c1) ∧
        getTodoById ObjectId.ofHexString none "000000000000000000000000" c1
          = (⟨404, .text "Not found"⟩, c1) ∧
        deleteTodo ObjectId.ofHexString none "000000000000000000000000" c1
          = (⟨200, .deleted ⟨true, 0⟩⟩, c1) :=
  ⟨by decide, by decide,
   delete_get_delete ObjectId.ofHexString "000000000000000000000000" (sampleId 0)
     [sampleTodo, [("_id", .oid (sampleId 1))]] (by decide) (by decide)
     ⟨sampleTodo, by decide, by decide⟩⟩

/-! ## Database errors -/

/-- Claim C6: on each of the five routes, whatever error `e` the database
operation raises, the handler answers 500 with the fixed text of the route
(`Create failed`, `Read failed`, `Read failed`, `Update failed`,
`Delete failed`) and leaves the collection as it was; the response does not
depend on `e`, so two different errors on a route get the same response. -/
theorem database_error_gives_fixed_500 (mk : String → Except Thrown ObjectId)
    (paths : Document → Document → Except Thrown Document) (fault : Option Thrown) (fresh : ObjectId) (id : String) (body : Document)
    (c : Collection) (e : Thrown) :
    (insertOne fault fresh body c = .error e →
        postTodos fault fresh body c = (⟨500, .text "Create failed"⟩, c)) ∧
      (findAll fault c = .error e →
        getTodos fault c = (⟨500, .text "Read failed"⟩, c)) ∧
      (∀ o, mk id = .ok o → findOne fault o c = .error e →
        getTodoById mk fault id c = (⟨500, .text "Read failed"⟩, c)) ∧
      (∀ o, mk id = .ok o → updateOne paths fault o body c = .error e →
        putTodo mk paths fault id body c = (⟨500, .text "Update failed"⟩, c)) ∧
      (∀ o, mk id = .ok o → deleteOne fault o c = .error e →
        deleteTodo mk fault id c = (⟨500, .text "Delete failed"⟩, c)) := by
  refine ⟨?_, ?_, ?_, ?_, ?_⟩
  · intro h
    simp [postTodos, h]
  · intro h
    simp [getTodos, h]
  · intro o hid h
    simp [getTodoById, hid, bind, Except.bind, h]
  · intro o hid h
    simp [putTodo, hid, bind, Except.bind, h]
  · intro o hid h
    simp [deleteTodo, hid, bind, Except.bind, h]

/-- Witness of C6: a lost connection on each route. -/
theorem database_error_gives_fixed_500_witness :
    postTodos (some (.driverError "connection closed")) (sampleId 1) [] [sampleTodo]
        = (⟨500, .text "Create failed"⟩, [sampleTodo]) ∧
      getTodos (some (.driverError "connection closed")) [sampleTodo]
        = (⟨500, .text "Read failed"⟩, [sampleTodo]) ∧
      getTodoById ObjectId.ofHexString (some (.driverError "connection closed"))
          "000000000000000000000000" [sampleTodo]
        = (⟨500, .text "Read failed"⟩, [sampleTodo]) ∧
      putTodo ObjectId.ofHexString viaSubdocuments (some (.driverError "connection closed"))
          "000000000000000000000000" [] [sampleTodo]
        = (⟨500, .text "Update failed"⟩, [sampleTodo]) ∧
      deleteTodo ObjectId.ofHexString (some (.driverError "connection closed"))
          "000000000000000000000000" [sampleTodo]
        = (⟨500, .text "Delete failed"⟩, [sampleTodo]) :=
  have h := database_error_gives_fixed_500 ObjectId.ofHexString viaSubdocuments
    (some (.driverError "connection closed")) (sampleId 1) "000000000000000000000000" []
    [sampleTodo] (.driverError "connection closed")
  ⟨h.1 (by decide), h.2.1 (by decide), h.2.2.1 (sampleId 0) (by decide) (by decide),
   h.2.2.2.1 (sampleId 0) (by decide) (by decide),
   h.2.2.2.2 (sampleId 0) (by decide) (by decide)⟩

/-! ## Startup -/

/-- Claim C10: when the connection attempt fails the startup routine logs the
error and exits with code 1, registering no route and starting no listener;
when it succeeds the five routes are registered and then the listener is started
on port 4000; so a listener is started only after a successful connection. -/
theorem startup_listens_only_when_connected (connect : Except Thrown Unit) :
    (∀ e, connect = .error e →
        startup connect = [.useJson, .logError "MongoDB connection failed:", .exit 1] ∧
        (∀ m p, Action.route m p ∉ startup connect) ∧
        (∀ n, Action.listen n ∉ startup connect)) ∧
      (∀ u, connect = .ok u →
        ∃ before after, startup connect = before ++ .listen 4000 :: after ∧
          [Action.route "POST" "/todos", .route "GET" "/todos", .route "GET" "/todos/:id",
            .route "PUT" "/todos/:id", .route "DELETE" "/todos/:id"].Sublist before ∧
          (∀ a ∈ after, ∀ m p, a ≠ .route m p) ∧
          (∀ n, Action.exit n ∉ startup connect)) ∧
      (∀ n, Action.listen n ∈ startup connect → ∃ u, connect = .ok u) := by
  cases connect with
  | error e0 =>
    refine ⟨?_, ?_, ?_⟩
    · intro e _
      simp [startup]
    · intro u h
      cases h
    · intro n h
      simp [startup] at h
  | ok u0 =>
    refine ⟨?_, ?_, ?_⟩
    · intro e h
      cases h
    · intro u _
      refine ⟨[.useJson, .log "Connected to MongoDB", .route "POST" "/todos",
        .route "GET" "/todos", .route "GET" "/todos/:id", .route "PUT" "/todos/:id",
        .route "DELETE" "/todos/:id"], [.log "To-Do API running at http://localhost:4000"],
        by simp [startup, port], ?_, by simp, by simp [startup]⟩
      exact (List.Sublist.refl _).cons _ |>.cons _
    · intro n _
      exact ⟨u0, rfl⟩

/-- Witness of C10: a refused connection, and a listener that implies a
connection. -/
theorem startup_listens_only_when_connected_witness :
    (startup (.error (.driverError "ECONNREFUSED"))
          = [.useJson, .logError "MongoDB connection failed:", .exit 1] ∧
        (∀ m p, Action.route m p ∉ startup (.error (.driverError "ECONNREFUSED"))) ∧
        (∀ n, Action.listen n ∉ startup (.error (.driverError "ECONNREFUSED")))) ∧
      Action.listen 4000 ∈ startup (.ok ()) ∧ ∃ u, (Except.ok () : Except Thrown Unit) = .ok u :=
  ⟨(startup_listens_only_when_connected (.error (.driverError "ECONNREFUSED"))).1
      (.driverError "ECONNREFUSED") rfl,
   by decide,
   (startup_listens_only_when_connected (.ok ())).2.2 4000 (by decide)⟩

/-! ## Listing -/

/-- Every `POST /todos` of a run that was answered with 201 acknowledges an
identifier that a document of the final collection carries. -/
theorem postMany_acknowledged (reqs : List (Option Thrown × ObjectId × Document)) :
    ∀ (c : Collection), ∀ resp ∈ (postMany reqs c).1, resp.status = 201 →
      ∃ ack, resp.body = .inserted ack ∧
        ∃ d ∈ (postMany reqs c).2, field "_id" d = some ack.insertedId := by
  induction reqs with
  | nil => intro c resp h; simp [postMany] at h
  | cons req rest ih =>
    obtain ⟨fault, fresh, body⟩ := req
    intro c resp hresp hst
    simp only [postMany] at hresp ⊢
    rcases List.mem_cons.1 hresp with rfl | hrest
    · rcases postTodos_cases fault fresh body c with ⟨v, d1, hp, hd1, _⟩ | ⟨hne, _⟩
      · refine ⟨⟨true, v⟩, by rw [hp], d1, ?_, hd1⟩
        apply postMany_keeps
        rw [hp]
        exact List.mem_append_right _ (List.mem_singleton.2 rfl)
      · exact absurd hst hne
    · exact ih _ resp hrest hst

/-- Claim C9: `GET /todos` answers 200 with every record of the collection and
leaves the collection as it was; after a run of `POST /todos` requests its
answer holds, for each request of the run that was answered with 201, a record
with the identifier that answer acknowledged, and every record that was there
before the run. -/
theorem getTodos_lists_everything (reqs : List (Option Thrown × ObjectId × Document))
    (c : Collection) :
    getTodos none c = (⟨200, .documents c⟩, c) ∧
      (postMany reqs c).1.length = reqs.length ∧
      ∃ ds, getTodos none (postMany reqs c).2
          = (⟨200, .documents ds⟩, (postMany reqs c).2) ∧
        (∀ resp ∈ (postMany reqs c).1, resp.status = 201 →
          ∃ ack, resp.body = .inserted ack ∧ ∃ d ∈ ds, field "_id" d = some ack.insertedId) ∧
        (∀ d ∈ c, d ∈ ds) := by
  refine ⟨rfl, ?_, (postMany reqs c).2, rfl, postMany_acknowledged reqs c,
    postMany_keeps reqs c⟩
  induction reqs generalizing c with
  | nil => rfl
  | cons req rest ih =>
    obtain ⟨fault, fresh, body⟩ := req
    simp [postMany, ih]

/-- Witness of C9: two to-dos are created in an empty collection; the list holds
a record for each acknowledged identifier. -/
theorem getTodos_lists_everything_witness :
    ∃ ds, getTodos none (postMany sampleRun []).2
        = (⟨200, .documents ds⟩, (postMany sampleRun []).2) ∧
      (∃ d ∈ ds, field "_id" d = some (.oid (sampleId 1))) ∧
      (∃ d ∈ ds, field "_id" d = some (.oid (sampleId 2))) := by
  obtain ⟨ds, hget, hack, _⟩ := (getTodos_lists_everything sampleRun []).2.2
  refine ⟨ds, hget, ?_, ?_⟩
  · obtain ⟨ack, hb, d, hd, hdid⟩ :=
      hack ⟨201, .inserted ⟨true, .oid (sampleId 1)⟩⟩ (by decide) rfl
    cases hb
    exact ⟨d, hd, hdid⟩
  · obtain ⟨ack, hb, d, hd, hdid⟩ :=
      hack ⟨201, .inserted ⟨true, .oid (sampleId 2)⟩⟩ (by decide) rfl
    cases hb
    exact ⟨d, hd, hdid⟩

/-! ## Create, then fetch -/

/-- Counterexample to C4: a body that brings its own `_id`, here the string
`abc`.  `POST /todos` succeeds with 201 and acknowledges the identifier `abc`;
`GET /todos/abc` then answers 500, because `abc` is not an ObjectId. -/
theorem post_with_own_id_then_get_fails :
    postTodos none (sampleId 1) [("_id", .str "abc"), ("title", .str "buy milk")] []
        = (⟨201, .inserted ⟨true, .str "abc"⟩⟩,
            [[("_id", .str "abc"), ("title", .str "buy milk")]]) ∧
      getTodoById ObjectId.ofHexString none "abc"
          [[("_id", .str "abc"), ("title", .str "buy milk")]]
        = (⟨500, .text "Read failed"⟩, [[("_id", .str "abc"), ("title", .str "buy milk")]]) := by
  decide

/-- Claim C4, amended: for a body without an `_id` field, when `POST /todos`
succeeds it answers 201 with an acknowledgment of the generated ObjectId, and
`GET /todos/X` on the collection it leaves, `X` being the hexadecimal text of
that ObjectId, answers 200 with a record that has this ObjectId as `_id` and
every field of the body with the same value. -/
theorem post_then_get (mk : String → Except Thrown ObjectId) (fault : Option Thrown)
    (fresh : ObjectId) (body : Document) (c c1 : Collection) (res : Body)
    (hmk : mk fresh.toHexString = .ok fresh) (hbody : field "_id" body = none)
    (hpost : postTodos fault fresh body c = (⟨201, res⟩, c1)) :
    res = .inserted ⟨true, .oid fresh⟩ ∧
      ∃ r, getTodoById mk none fresh.toHexString c1 = (⟨200, .document r⟩, c1) ∧
        field "_id" r = some (.oid fresh) ∧
        ∀ k v, field k body = some v → field k r = some v := by
  have ha : assignId fresh body = (.oid fresh, body ++ [("_id", .oid fresh)]) := by
    simp [assignId, hbody]
  rcases postTodos_cases fault fresh body c with ⟨v, d1, hp, _, _⟩ | ⟨hne, _⟩
  · cases h : insertOne fault fresh body c with
    | error e => simp [postTodos, h] at hp
    | ok out =>
      obtain ⟨res0, c0⟩ := out
      obtain ⟨_, hres, hc0, hno⟩ := insertOne_ok fault fresh body c c0 res0 h
      rw [ha] at hres hc0 hno
      simp only [postTodos, h, hres, hc0, Prod.mk.injEq, Response.mk.injEq, true_and] at hpost
      obtain ⟨hr, hc1⟩ := hpost
      have hfid : field "_id" (body ++ [("_id", Value.oid fresh)]) = some (.oid fresh) := by
        rw [field_append, hbody]
        rfl
      have hfind : c1.find? (matchesId fresh) = some (body ++ [("_id", .oid fresh)]) := by
        rw [← hc1, List.find?_append, find_none_of_no_match fresh c hno]
        simp [List.find?_cons, (matchesId_iff fresh _).2 hfid]
      refine ⟨hr.symm, body ++ [("_id", .oid fresh)], ?_, hfid, ?_⟩
      · simp [getTodoById, hmk, findOne, bind, Except.bind, hfind]
      · intro k v hkv
        rw [field_append, hkv]
        rfl
  · rw [hpost] at hne
    exact absurd rfl hne

/-- Witness of C4 as amended: `buy milk` is created in an empty collection and
fetched by the identifier of ones. -/
theorem post_then_get_witness :
    ObjectId.ofHexString (sampleId 1).toHexString = .ok (sampleId 1) ∧
      field "_id" [("title", Value.str "buy milk")] = none ∧
      postTodos none (sampleId 1) [("title", .str "buy milk")] []
        = (⟨201, .inserted ⟨true, .oid (sampleId 1)⟩⟩,
            [[("title", .str "buy milk"), ("_id", .oid (sampleId 1))]]) ∧
      ∃ r, getTodoById ObjectId.ofHexString none (sampleId 1).toHexString
            [[("title", .str "buy milk"), ("_id", .oid (sampleId 1))]]
          = (⟨200, .document r⟩, [[("title", .str "buy milk"), ("_id", .oid (sampleId 1))]]) ∧
        field "_id" r = some (.oid (sampleId 1)) ∧
        ∀ k v, field k [("title", Value.str "buy milk")] = some v → field k r = some v :=
  ⟨ofHexString_toHexString _, by decide, by decide,
   (post_then_get ObjectId.ofHexString none (sampleId 1) [("title", .str "buy milk")] []
     [[("title", .str "buy milk"), ("_id", .oid (sampleId 1))]]
     (.inserted ⟨true, .oid (sampleId 1)⟩) (ofHexString_toHexString _) (by decide)
     (by decide)).2⟩

end TodoApi
